import Mathlib

/-!
Shallow embedding of the files_manager service (controllers, misc utilities and
the thumbnail worker) together with proofs settling the specification claims.

Conventions of the embedding:
* MongoDB ObjectId values are modelled by `BsonId`: `hex s` stands for an id
  built from a well-formed id string `s`, and `generated seed` stands for a
  freshly generated id (the bson 1.x `ObjectID` constructor generates a fresh
  id when its argument is `null`/`undefined` or a number).
* A Mongo collection is a `List` of documents; `findOne` is `List.find?`,
  `insertOne` appends, `updateOne` rewrites the first matching document.
* JavaScript values that may be `undefined` are `Option`; the JS falsiness
  test `!x` on an optional string is `falsyOpt` (true on `undefined` and "").
* A JS exception that propagates out of a function is an explicit constructor
  (`thrown`) of the result type; `try/catch` blocks are modelled by matching
  on it at the call site.
* The outcome of the asynchronous `fs.writeFile` call is an explicit boolean
  parameter (`writeSucceeds`), as are the per-width outcomes of the
  thumbnail generator (`ok : Nat → Bool`).
-/

namespace FilesManager

/-- Model of a MongoDB ObjectId (bson 1.x). -/
inductive BsonId
  | hex (s : String)
  | generated (seed : Nat)
deriving DecidableEq, Repr

/-- Mirrors bson 1.x `ObjectID.isValid`: a 12-character string or a
24-character hex string. -/
def objectIdIsValid (s : String) : Bool :=
  s.length == 12 || (s.length == 24 && s.data.all (fun c => c.isDigit || (0x61 ≤ c.toNat && c.toNat ≤ 0x66) || (0x41 ≤ c.toNat && c.toNat ≤ 0x46)))

/-- The JavaScript value held by `request.body.parentId` after the destructuring
default `parentId = 0` has been applied: either the numeric default or a
supplied string. -/
inductive JsVal
  | num (n : Nat)
  | str (s : String)
deriving DecidableEq, Repr

/-- Mirrors the bson 1.x `ObjectID(id)` constructor: a number (or missing
value) generates a fresh id; a string must satisfy `isValid`, otherwise the
constructor throws (`none` here). -/
def objectIdOfVal : JsVal → Nat → Option BsonId
  | .num _, seed => some (.generated seed)
  | .str s, _ => if objectIdIsValid s then some (.hex s) else none

/-- A document of the `files` collection. -/
structure FileDoc where
  _id : BsonId
  userId : BsonId
  name : String
  type : String
  isPublic : Bool
  parentId : Option BsonId
  localPath : Option String
deriving DecidableEq, Repr

/-- A document of the `users` collection (the fields the controllers touch). -/
structure UserDoc where
  _id : BsonId
  email : String
deriving DecidableEq, Repr

/-- The sanitized projection the controllers return: `localPath` stripped and
`_id` rendered under the public field name `id`. -/
structure FileProj where
  id : BsonId
  userId : BsonId
  name : String
  type : String
  isPublic : Bool
  parentId : Option BsonId
deriving DecidableEq, Repr

/-- Builds the sanitized projection of a file document. -/
def sanitize (f : FileDoc) : FileProj :=
  { id := f._id, userId := f.userId, name := f.name, type := f.type
    isPublic := f.isPublic, parentId := f.parentId }

/-- JS falsiness of an optional string: `undefined` and the empty string are
falsy. -/
def falsyOpt : Option String → Bool
  | none => true
  | some s => s == ""

/-- A Redis GET over the modelled key/value store. -/
def redisGet (store : List (String × String)) (key : String) : Option String :=
  (store.find? (fun kv => kv.fst == key)).map (fun kv => kv.snd)

/-! Base64 transport codec, mirroring Node.js Buffer semantics.
Buffer.from(s, "base64") accepts both the standard and the URL-safe alphabet,
ignores characters outside the alphabet (padding "=" included) and drops a
trailing group that carries fewer than 8 bits. -/

/-- The standard base64 alphabet as a character list. -/
def b64Alphabet : List Char :=
  "ABCDEFGHIJKLMNOPQRSTUVWXYZabcdefghijklmnopqrstuvwxyz0123456789+/".data

/-- Value of one base64 digit; URL-safe digits accepted like Node does. -/
def b64Val (c : Char) : Option Nat :=
  if c == '-' then some 62
  else if c == '_' then some 63
  else b64Alphabet.indexOf? c

/-- Reassembles bytes from a list of 6-bit groups. -/
def b64Bytes : List Nat → List Nat
  | v1 :: v2 :: v3 :: v4 :: rest =>
      (v1 * 4 + v2 / 16) :: (v2 % 16 * 16 + v3 / 4) :: (v3 % 4 * 64 + v4)
        :: b64Bytes rest
  | [v1, v2, v3] => [v1 * 4 + v2 / 16, v2 % 16 * 16 + v3 / 4]
  | [v1, v2] => [v1 * 4 + v2 / 16]
  | [_] => []
  | [] => []

/-- Mirrors Buffer.from(cipherText, "base64"): decode to raw bytes. -/
def base64Decode (s : String) : List Nat :=
  b64Bytes (s.data.filterMap b64Val)

/-- Encodes a byte triple, pair or singleton into base64 characters with
padding, used by groups of `base64Encode`. -/
def b64EncBytes : List Nat → List Char
  | b1 :: b2 :: b3 :: rest =>
      b64Alphabet.getD (b1 / 4) 'A' :: b64Alphabet.getD (b1 % 4 * 16 + b2 / 16) 'A'
        :: b64Alphabet.getD (b2 % 16 * 4 + b3 / 64) 'A' :: b64Alphabet.getD (b3 % 64) 'A'
        :: b64EncBytes rest
  | [b1, b2] =>
      [b64Alphabet.getD (b1 / 4) 'A', b64Alphabet.getD (b1 % 4 * 16 + b2 / 16) 'A',
       b64Alphabet.getD (b2 % 16 * 4) 'A', '=']
  | [b1] =>
      [b64Alphabet.getD (b1 / 4) 'A', b64Alphabet.getD (b1 % 4 * 16) 'A', '=', '=']
  | [] => []

/-- Mirrors buf.toString("base64"): encode raw bytes with padding. -/
def base64Encode (bs : List Nat) : String :=
  String.mk (b64EncBytes bs)

/-! UTF-8 codec. Buffer.prototype.toString("utf-8") decodes bytes into a
JavaScript string replacing every malformed subsequence with U+FFFD (the
WHATWG decoder Node implements), and fs.writeFile of a string writes the
UTF-8 encoding of that string back to bytes. A JS string is modelled as the
list of its Unicode scalar values. -/

/-- Decodes a UTF-8 byte list into scalar values, with U+FFFD replacement for
malformed input, following the WHATWG decoding algorithm: an invalid or
truncated sequence emits one replacement character and decoding resumes at
the first unconsumed byte. -/
def utf8DecodeGo : Nat → List Nat → List Nat
  | _, [] => []
  | 0, _ :: _ => []
  | fuel + 1, b1 :: r1 =>
    if b1 < 0x80 then b1 :: utf8DecodeGo fuel r1
    else if 0xC2 ≤ b1 ∧ b1 ≤ 0xDF then
      match r1 with
      | [] => [0xFFFD]
      | b2 :: r2 =>
        if 0x80 ≤ b2 ∧ b2 ≤ 0xBF then
          ((b1 - 0xC0) * 64 + (b2 - 0x80)) :: utf8DecodeGo fuel r2
        else 0xFFFD :: utf8DecodeGo fuel (b2 :: r2)
    else if 0xE0 ≤ b1 ∧ b1 ≤ 0xEF then
      match r1 with
      | [] => [0xFFFD]
      | b2 :: r2 =>
        let lo2 := if b1 == 0xE0 then 0xA0 else 0x80
        let hi2 := if b1 == 0xED then 0x9F else 0xBF
        if lo2 ≤ b2 ∧ b2 ≤ hi2 then
          match r2 with
          | [] => [0xFFFD]
          | b3 :: r3 =>
            if 0x80 ≤ b3 ∧ b3 ≤ 0xBF then
              ((b1 - 0xE0) * 4096 + (b2 - 0x80) * 64 + (b3 - 0x80))
                :: utf8DecodeGo fuel r3
            else 0xFFFD :: utf8DecodeGo fuel (b3 :: r3)
        else 0xFFFD :: utf8DecodeGo fuel (b2 :: r2)
    else if 0xF0 ≤ b1 ∧ b1 ≤ 0xF4 then
      match r1 with
      | [] => [0xFFFD]
      | b2 :: r2 =>
        let lo2 := if b1 == 0xF0 then 0x90 else 0x80
        let hi2 := if b1 == 0xF4 then 0x8F else 0xBF
        if lo2 ≤ b2 ∧ b2 ≤ hi2 then
          match r2 with
          | [] => [0xFFFD]
          | b3 :: r3 =>
            if 0x80 ≤ b3 ∧ b3 ≤ 0xBF then
              match r3 with
              | [] => [0xFFFD]
              | b4 :: r4 =>
                if 0x80 ≤ b4 ∧ b4 ≤ 0xBF then
                  ((b1 - 0xF0) * 262144 + (b2 - 0x80) * 4096
                    + (b3 - 0x80) * 64 + (b4 - 0x80)) :: utf8DecodeGo fuel r4
                else 0xFFFD :: utf8DecodeGo fuel (b4 :: r4)
            else 0xFFFD :: utf8DecodeGo fuel (b3 :: r3)
        else 0xFFFD :: utf8DecodeGo fuel (b2 :: r2)
    else 0xFFFD :: utf8DecodeGo fuel r1

/-- Decodes a UTF-8 byte list with replacement. The fuel argument of the
worker only bounds recursion depth; the list length is always enough fuel
because every step consumes at least one byte. -/
def utf8DecodeReplace (l : List Nat) : List Nat :=
  utf8DecodeGo l.length l

/-- UTF-8 encoding of one Unicode scalar value. -/
def utf8EncodeChar (c : Nat) : List Nat :=
  if c < 0x80 then [c]
  else if c < 0x800 then [0xC0 + c / 64, 0x80 + c % 64]
  else if c < 0x10000 then [0xE0 + c / 4096, 0x80 + c / 64 % 64, 0x80 + c % 64]
  else [0xF0 + c / 262144, 0x80 + c / 4096 % 64, 0x80 + c / 64 % 64, 0x80 + c % 64]

/-- UTF-8 encoding of a scalar-value list (what fs.writeFile writes for a JS
string). -/
def utf8Encode (cs : List Nat) : List Nat :=
  (cs.map utf8EncodeChar).flatten

/-- Mirrors cipherTextToPlaintext of src/utils/misc.js: Buffer.from(cipherText,
"base64").toString("utf-8"); the resulting JS string is its scalar-value
list. -/
def cipherTextToPlaintext (cipherText : String) : List Nat :=
  utf8DecodeReplace (base64Decode cipherText)

/-- The bytes that end up in the stored blob for a non-folder upload: the
decoded JS string handed to fs.writeFile, written back as UTF-8. -/
def storedBlobBytes (data : String) : List Nat :=
  utf8Encode (cipherTextToPlaintext data)

/-! Blob store write, mirroring saveToLocalFileSystem of src/utils/misc.js.
The source calls the callback-style fs.writeFile, whose callback returns
`false` on error and `true` on success — but that return value goes nowhere —
and then the enclosing function returns `true` unconditionally. -/

/-- The callback passed to fs.writeFile inside saveToLocalFileSystem: logs and
returns false on error, returns true otherwise. Its return value is discarded
by fs. -/
def writeFileCallback (err : Bool) : Bool :=
  if err then false else true

/-- Mirrors saveToLocalFileSystem: schedules the write, ignores the callback
result and resolves `true` whatever the outcome of the disk write was. -/
def saveToLocalFileSystem (writeSucceeds : Bool) : Bool :=
  let _cbResult := writeFileCallback (!writeSucceeds)
  true

/-! Access resolution, mirroring UsersController.getUserData of
src/controllers/UsersController.js. -/

/-- Outcome of UsersController.getUserData: a thrown JS exception, a resolved
`null` (token present but no live session), or the user document. -/
inductive UserLookup
  | thrown (msg : String)
  | noUser
  | found (u : UserDoc)
deriving DecidableEq, Repr

/-- Mirrors UsersController.getUserData: a missing (or empty) X-Token header
throws "Token is missing"; a token with no session mapping resolves null; a
session whose user row is gone throws "User not found". ObjectId applied to a
malformed stored user id would also throw. -/
def getUserData (redis : List (String × String)) (users : List UserDoc)
    (token : Option String) : UserLookup :=
  if falsyOpt token then .thrown "Token is missing"
  else
    match redisGet redis ("auth_" ++ token.getD "") with
    | none => .noUser
    | some uid =>
      if objectIdIsValid uid then
        match users.find? (fun u => u._id == BsonId.hex uid) with
        | none => .thrown "User not found"
        | some u => .found u
      else .thrown "Malformed ObjectId"

/-! FilesController.getShow (part_000 lines 78-108): GET /files/:id. -/

/-- Possible responses of getShow. -/
inductive ShowResult
  | ok (file : FileProj)
  | unauthorized
  | notFound
  | serverError
deriving DecidableEq, Repr

/-- Mirrors FilesController.getShow: resolves the token directly against
Redis (401 when absent), then looks the file up by BOTH its id AND the
requesting user id; an ObjectId constructor throw is caught by the handler
and surfaces 500. The projection strips localPath and renames the id. -/
def getShow (redis : List (String × String)) (db : List FileDoc)
    (token : Option String) (id : String) : ShowResult :=
  match redisGet redis ("auth_" ++ token.getD "undefined") with
  | none => .unauthorized
  | some uid =>
    if objectIdIsValid id ∧ objectIdIsValid uid then
      match db.find? (fun f => f._id == BsonId.hex id && f.userId == BsonId.hex uid) with
      | none => .notFound
      | some f => .ok (sanitize f)
    else .serverError

/-! FilesController.getFile (part_000 lines 218-255): GET /files/:id/data. -/

/-- Possible responses of getFile. -/
inductive FileResult
  | bytes (content : List Nat)
  | badRequest (msg : String)
  | notFound
  | unauthorized
deriving DecidableEq, Repr

/-- Mirrors lines 236-239 of getFile: when a supported size is requested the
path of the derived blob is the original local path with "_" and the size
appended; any other size value keeps the original path. -/
def thumbnailLocalPath (localPath : String) (size : Option String) : String :=
  match size with
  | some s => if s == "100" || s == "250" || s == "500" then localPath ++ "_" ++ s
      else localPath
  | none => localPath

/-- Mirrors FilesController.getFile. The whole body sits in a try/catch whose
catch returns 401: a getUserData throw, a null user (the subsequent
dbUser._id dereference raises TypeError), a malformed :id (ObjectId throws)
all surface 401. The lookup again requires the requester to OWN the file.
After the folder check the handler evaluates mime.lookup, but no binding
named mime exists in the module, so a ReferenceError is raised and the catch
returns 401 — the readFile branch below it is unreachable. -/
def getFile (redis : List (String × String)) (users : List UserDoc)
    (db : List FileDoc) (token : Option String) (id : String)
    (size : Option String) : FileResult :=
  match getUserData redis users token with
  | .thrown _ => .unauthorized
  | .noUser => .unauthorized
  | .found u =>
    if objectIdIsValid id then
      match db.find? (fun f => f.userId == u._id && f._id == BsonId.hex id) with
      | none => .notFound
      | some f =>
        if f.type == "folder" then .badRequest "A folder does not have content"
        else
          let _localFilePath := thumbnailLocalPath (f.localPath.getD "") size
          .unauthorized
    else .unauthorized

/-! Upload path: FilesController.validateFileRequest, createFolder,
createFile and postUpload (part_000 lines 44-75, 268-304, 314-324,
336-365). -/

/-- The body of a POST /files request together with its X-Token header.
Every body field that JavaScript may see as undefined is an Option. The
isPublic flag is kept as the boolean the destructuring default produces. -/
structure UploadReq where
  token : Option String
  name : Option String
  type : Option String
  parentId : Option String
  isPublic : Bool
  data : Option String
deriving DecidableEq, Repr

/-- Accepted file types of the controller constructor. -/
def acceptedFileTypes : List String := ["folder", "file", "image"]

/-- Mirrors FilesController.validateFileRequest: the checks run in source
order and the first failure is the 400 error sent. The parentId lookup uses
the destructuring default "0" and matches the parent by id only, with no
ownership constraint. Returns the error message, or none when every check
passes. -/
def validateFileRequest (db : List FileDoc) (req : UploadReq) : Option String :=
  if falsyOpt req.name then some "Missing name"
  else if falsyOpt req.type || !acceptedFileTypes.contains (req.type.getD "") then
    some "Missing type"
  else if falsyOpt req.data && req.type.getD "" != "folder" then
    some "Missing data"
  else
    let parentId := req.parentId.getD "0"
    if parentId != "0" then
      if !objectIdIsValid parentId then some "Invalid parentId format"
      else
        match db.find? (fun f => f._id == BsonId.hex parentId) with
        | none => some "Parent not found"
        | some parentFolder =>
          if parentFolder.type != "folder" then some "Parent is not a folder"
          else none
    else none

/-- Mirrors line 60 of postUpload: validParentId is null when the
destructured parentId triple-equals the string "0"; otherwise the value —
the numeric default 0 when the field was absent — is passed to the ObjectId
constructor. The outer `none` means the constructor threw; `some none` is a
stored null. -/
def validParentId (v : JsVal) (seed : Nat) : Option (Option BsonId) :=
  if v = JsVal.str "0" then some none
  else
    match objectIdOfVal v seed with
    | none => none
    | some oid => some (some oid)

/-- The JavaScript value of parentId after the `parentId = 0` destructuring
default of postUpload line 52. -/
def parentIdVal (req : UploadReq) : JsVal :=
  match req.parentId with
  | none => .num 0
  | some s => .str s

/-- The fileDocument record postUpload builds before handing off to
createFolder or createFile. -/
structure FileSpec where
  userId : BsonId
  name : String
  type : String
  isPublic : Bool
  parentId : Option BsonId
deriving DecidableEq, Repr

/-- A thumbnail job as enqueued on the Bull fileQueue. -/
structure ThumbJob where
  userId : BsonId
  fileId : BsonId
deriving DecidableEq, Repr

/-- The client-observable HTTP response of the upload path. -/
inductive HttpResp
  | created (body : FileProj)
  | badRequest (msg : String)
  | unauthorized
  | internalError
deriving DecidableEq, Repr

/-- How a request to postUpload terminates: with a response written to the
client, or with an exception that escapes the async handler — Express 4
installs no handler for a rejected promise, so no response is produced. -/
inductive PostUploadOutcome
  | response (r : HttpResp)
  | uncaught (msg : String)
deriving DecidableEq, Repr

/-- The effect of one upload request: the outcome, the files collection
afterwards, the blobs written to disk and the thumbnail jobs enqueued. -/
structure UploadEffect where
  outcome : PostUploadOutcome
  db : List FileDoc
  disk : List (String × List Nat)
  jobs : List ThumbJob
deriving Repr

/-- Mirrors FilesController.createFolder: inserts the fileDocument as is —
no localPath field — and answers 201 with the projection. -/
def createFolder (db : List FileDoc) (fdoc : FileSpec) (newId : BsonId) :
    HttpResp × List FileDoc :=
  let newDoc : FileDoc :=
    { _id := newId, userId := fdoc.userId, name := fdoc.name, type := fdoc.type
      isPublic := fdoc.isPublic, parentId := fdoc.parentId, localPath := none }
  (.created (sanitize newDoc), db ++ [newDoc])

/-- Mirrors FilesController.createFile: decoding data that is undefined
throws (Buffer.from raises TypeError), which the catch turns into a 500 with
no insert; otherwise the blob write is attempted, saveToLocalFileSystem
reports success unconditionally, the metadata row is inserted with localPath
set, and a job is enqueued when the type is image. -/
def createFile (db : List FileDoc) (fdoc : FileSpec) (data : Option String)
    (newId : BsonId) (path : String) (writeSucceeds : Bool) :
    HttpResp × List FileDoc × List (String × List Nat) × List ThumbJob :=
  match data with
  | none => (.internalError, db, [], [])
  | some d =>
    let decoded := cipherTextToPlaintext d
    if !saveToLocalFileSystem writeSucceeds then (.internalError, db, [], [])
    else
      let newDoc : FileDoc :=
        { _id := newId, userId := fdoc.userId, name := fdoc.name
          type := fdoc.type, isPublic := fdoc.isPublic
          parentId := fdoc.parentId, localPath := some path }
      let blob := if writeSucceeds then [(path, utf8Encode decoded)] else []
      let jobs := if fdoc.type == "image" then [⟨fdoc.userId, newId⟩] else []
      (.created (sanitize newDoc), db ++ [newDoc], blob, jobs)

/-- The response the CLIENT sees when execution continues past a failed
validation: validateFileRequest already wrote the 400 before returning, the
`.error` property read on that Express response object is undefined, so the
guard in postUpload does not stop the handler; every later status/json call
throws ERR_HTTP_HEADERS_SENT and the 400 stands. -/
def firstResp (validationError : Option String) (r : HttpResp) : PostUploadOutcome :=
  match validationError with
  | some m => .response (.badRequest m)
  | none => .response r

/-- Mirrors FilesController.postUpload end to end: a thrown getUserData is
uncaught (no catch in this handler); a null user answers 401; validation
writes its 400 but — because of the falsy `.error` check — the handler keeps
going, normalizes parentId (line 60), builds the fileDocument and calls
createFolder or createFile, whose database and queue effects happen even on
a validation failure, provided the ObjectId constructor does not throw. -/
def postUpload (redis : List (String × String)) (users : List UserDoc)
    (db : List FileDoc) (req : UploadReq) (seed : Nat) (newId : BsonId)
    (path : String) (writeSucceeds : Bool) : UploadEffect :=
  match getUserData redis users req.token with
  | .thrown msg => ⟨.uncaught msg, db, [], []⟩
  | .noUser => ⟨.response .unauthorized, db, [], []⟩
  | .found u =>
    let validationError := validateFileRequest db req
    match validParentId (parentIdVal req) seed with
    | none =>
      -- ObjectId threw on line 60; if the validation 400 was already sent the
      -- client sees it, otherwise the rejection escapes with no response.
      match validationError with
      | some m => ⟨.response (.badRequest m), db, [], []⟩
      | none => ⟨.uncaught "ObjectId constructor threw", db, [], []⟩
    | some pid =>
      let fdoc : FileSpec :=
        { userId := u._id, name := req.name.getD "", type := req.type.getD ""
          isPublic := req.isPublic, parentId := pid }
      if req.type.getD "" == "folder" then
        let r := createFolder db fdoc newId
        ⟨firstResp validationError r.fst, r.snd, [], []⟩
      else
        let r := createFile db fdoc req.data newId path writeSucceeds
        ⟨firstResp validationError r.fst, r.snd.fst, r.snd.snd.fst, r.snd.snd.snd⟩

/-! FilesController.getIndex (part_000 lines 110-155): GET /files. -/

/-- Mirrors the parentId normalization of getIndex lines 117-124: the string
"0" becomes null, a valid ObjectId string becomes that id, and anything else
— including an ABSENT query parameter — becomes null as well. The resulting
value is never undefined, so the match stage of the aggregation always
carries a parentId condition. -/
def normalizeQueryParentId (q : Option String) : Option BsonId :=
  match q with
  | some s =>
    if s == "0" then none
    else if objectIdIsValid s then some (.hex s) else none
  | none => none

/-- The page size hard-coded in getIndex. -/
def itemsPerPage : Nat := 20

/-- The documents the aggregation of getIndex matches: owner AND the
normalized parentId, always both. -/
def indexMatching (db : List FileDoc) (uid : BsonId) (pid : Option BsonId) :
    List FileDoc :=
  db.filter (fun f => f.userId == uid && f.parentId == pid)

/-- Mirrors the aggregation and sanitization of getIndex for an
authenticated user: match, skip page * 20, limit 20, strip localPath and
rename the id. -/
def getIndexFiles (db : List FileDoc) (uid : BsonId) (q : Option String)
    (page : Nat) : List FileProj :=
  (((indexMatching db uid (normalizeQueryParentId q)).drop (page * itemsPerPage)).take
    itemsPerPage).map sanitize

/-- Modelled from the spec for comparison with getIndexFiles (claim C6): the
listing is filtered by parent only when a parentId query value is given —
the root sentinel "0" matching null — and no parent condition at all is
applied when the parameter is absent. -/
def specListFiles (db : List FileDoc) (uid : BsonId) (q : Option String)
    (page : Nat) : List FileProj :=
  let keep : FileDoc → Bool := fun f =>
    f.userId == uid &&
      (match q with
       | none => true
       | some s => if s == "0" then f.parentId == none
           else f.parentId == some (.hex s))
  (((db.filter keep).drop (page * itemsPerPage)).take itemsPerPage).map sanitize

/-! FilesController.putPublish / putUnpublish / _publishOrUnpublish
(part_000 lines 163-216). -/

/-- Mirrors the updateOne call of _publishOrUnpublish on the files
collection: the first document whose _id matches gets only its isPublic
field replaced; every other document, and every other field, is untouched. -/
def updateOneSetPublic : List FileDoc → BsonId → Bool → List FileDoc
  | [], _, _ => []
  | f :: rest, tid, flag =>
    if f._id == tid then { f with isPublic := flag } :: rest
    else f :: updateOneSetPublic rest tid flag

/-- Possible responses of _publishOrUnpublish. -/
inductive PublishResult
  | ok (file : FileProj)
  | unauthorized
  | notFound
deriving DecidableEq, Repr

/-- Mirrors FilesController._publishOrUnpublish: resolve the user (any throw
or null user ends as 401 through the catch), find the file owned by the
requester (else 404), set isPublic and answer with the updated projection. -/
def publishOrUnpublish (redis : List (String × String)) (users : List UserDoc)
    (db : List FileDoc) (token : Option String) (id : String) (flag : Bool) :
    PublishResult × List FileDoc :=
  match getUserData redis users token with
  | .thrown _ => (.unauthorized, db)
  | .noUser => (.unauthorized, db)
  | .found u =>
    if objectIdIsValid id then
      match db.find? (fun f => f.userId == u._id && f._id == BsonId.hex id) with
      | none => (.notFound, db)
      | some target =>
        let db2 := updateOneSetPublic db target._id flag
        match db2.find? (fun f => f._id == target._id) with
        | none => (.notFound, db2)
        | some updated => (.ok (sanitize updated), db2)
    else (.unauthorized, db)

/-! The thumbnail worker (src/worker.js). -/

/-- The data carried by a delivered Bull job. -/
structure JobData where
  fileId : Option String
  userId : Option String
deriving DecidableEq, Repr

/-- Terminal state of one delivered job: explicitly moved to failed with a
message, or completed. -/
inductive JobStatus
  | failed (msg : String)
  | completed
deriving DecidableEq, Repr

/-- Mirrors generateThumbnail of src/worker.js: on success the rendition is
written to originalPath with "_" and the width appended; any error from the
resizer or the file write is caught and logged INSIDE the function, which
therefore never throws. Returns the path written, if any. -/
def generateThumbnail (originalPath : String) (width : Nat) (ok : Bool) :
    Option String :=
  if ok then some (originalPath ++ "_" ++ toString width) else none

/-- The fixed rendition widths of the worker. -/
def thumbnailSizes : List Nat := [100, 250, 500]

/-- The file lookup of the worker: ObjectId throws on a malformed id — which
the top-level catch turns into a failure — and otherwise the files
collection is queried by id AND owner. -/
def findFileForJob (db : List FileDoc) (fid uid : String) : Option FileDoc :=
  if objectIdIsValid fid && objectIdIsValid uid then
    db.find? (fun f => f._id == BsonId.hex fid && f.userId == BsonId.hex uid)
  else none

/-- Mirrors the fileQueue.process handler of src/worker.js: missing fileId,
missing userId and a failed file lookup each raise, and the top-level catch
moves the job to failed with the error message; otherwise all three widths
are attempted through generateThumbnail — whose per-width failures are
swallowed — and the job completes. Returns the terminal status and the list
of rendition paths actually written. -/
def processJob (db : List FileDoc) (jd : JobData) (ok : Nat → Bool) :
    JobStatus × List String :=
  if falsyOpt jd.fileId then (.failed "Missing fileId", [])
  else if falsyOpt jd.userId then (.failed "Missing userId", [])
  else
    let fid := jd.fileId.getD ""
    let uid := jd.userId.getD ""
    if !(objectIdIsValid fid && objectIdIsValid uid) then
      (.failed "ObjectId constructor threw", [])
    else
      match findFileForJob db fid uid with
      | none => (.failed "File not found", [])
      | some f =>
        (.completed,
          thumbnailSizes.filterMap
            (fun w => generateThumbnail (f.localPath.getD "") w (ok w)))

/-! The FileNode storage invariant of the specification (claim C10). -/

/-- A folder carries no localPath; a file or image carries one. -/
def fileNodeInv (f : FileDoc) : Prop :=
  (f.type = "folder" → f.localPath = none) ∧
    ((f.type = "file" ∨ f.type = "image") → f.localPath ≠ none)

instance (f : FileDoc) : Decidable (fileNodeInv f) := by
  unfold fileNodeInv; infer_instance

/-! Concrete fixtures used by the evaluation theorems and witnesses. -/

/-- A well-formed ObjectId string for user A. -/
def fxIdA : String := "aaaaaaaaaaaaaaaaaaaaaaaa"

/-- A well-formed ObjectId string for user B. -/
def fxIdB : String := "bbbbbbbbbbbbbbbbbbbbbbbb"

/-- A well-formed ObjectId string for a stored file. -/
def fxIdF : String := "ffffffffffffffffffffffff"

/-- A well-formed ObjectId string for a stored folder. -/
def fxIdD : String := "dddddddddddddddddddddddd"

/-- User A. -/
def fxUserA : UserDoc := ⟨.hex fxIdA, "a@mail.com"⟩

/-- User B. -/
def fxUserB : UserDoc := ⟨.hex fxIdB, "b@mail.com"⟩

/-- A PUBLIC image node owned by user A. -/
def fxPubFile : FileDoc :=
  ⟨.hex fxIdF, .hex fxIdA, "pic.png", "image", true, none,
    some "/tmp/files_manager/u1"⟩

/-- Sessions: tokA belongs to A, tokB to B. -/
def fxRedis : List (String × String) := [("auth_tokA", fxIdA), ("auth_tokB", fxIdB)]

/-- The users collection. -/
def fxUsers : List UserDoc := [fxUserA, fxUserB]

/-- A root-level folder owned by A. -/
def fxFolderD : FileDoc := ⟨.hex fxIdD, .hex fxIdA, "docs", "folder", false, none, none⟩

/-- A file owned by A stored under the folder fxFolderD. -/
def fxChildF : FileDoc :=
  ⟨.hex fxIdF, .hex fxIdA, "a.txt", "file", false, some (.hex fxIdD), some "/p"⟩

/-- Claim C1, evaluated on the code: the stored image is public, user B is
authenticated and is not the owner, yet BOTH read endpoints deny access —
GET /files/:id answers 404 and GET /files/:id/data answers 404 — because
each query filters the files collection by the requester as owner and the
isPublic flag is never consulted on any read path. -/
theorem c1_public_read_denied_by_code :
    fxPubFile.isPublic = true ∧
    getShow fxRedis [fxPubFile] (some "tokB") fxIdF = ShowResult.notFound ∧
    getFile fxRedis fxUsers [fxPubFile] (some "tokB") fxIdF none =
      FileResult.notFound := by
  decide

/-- Claim C2, evaluated on the code: a non-folder upload whose disk write
FAILS (writeSucceeds = false) still inserts its metadata row and answers
201, because saveToLocalFileSystem resolves true unconditionally; no
InternalError is produced and the row references a path with no blob. -/
theorem c2_blob_write_failure_still_inserts :
    createFile [] ⟨.hex fxIdA, "hi.txt", "file", false, none⟩ (some "aGk=")
        (.hex fxIdF) "/tmp/files_manager/x" false =
      (HttpResp.created ⟨.hex fxIdF, .hex fxIdA, "hi.txt", "file", false, none⟩,
        [⟨.hex fxIdF, .hex fxIdA, "hi.txt", "file", false, none,
          some "/tmp/files_manager/x"⟩],
        [], []) := by
  decide

/-- Claim C3, evaluated on the code: the submitted payload "/w==" encodes
the single byte 0xFF, but the stored blob holds the UTF-8 replacement
character bytes EF BF BD — cipherTextToPlaintext routes the decoded bytes
through a lossy UTF-8 string conversion — so re-encoding the stored blob
yields "77+9", not the original payload: the round-trip law fails for
non-UTF-8 binary payloads. -/
theorem c3_binary_payload_not_roundtripped :
    base64Decode "/w==" = [0xFF] ∧
    storedBlobBytes "/w==" = [0xEF, 0xBF, 0xBD] ∧
    base64Encode (storedBlobBytes "/w==") = "77+9" ∧
    base64Encode (storedBlobBytes "/w==") ≠ "/w==" := by
  decide

/-- Claim C4, evaluated on the code: a POST /files request with no X-Token
header makes getUserData throw "Token is missing", and postUpload has no
try/catch, so the rejection escapes and no 401 response is written; only
the other half of the claim — a token with no live session — actually
produces the unauthorized response. -/
theorem c4_missing_token_upload_uncaught :
    (postUpload fxRedis fxUsers [] ⟨none, some "a", some "folder", none, false, none⟩
        0 (.hex fxIdD) "/p" true).outcome =
      PostUploadOutcome.uncaught "Token is missing" ∧
    (postUpload fxRedis fxUsers [] ⟨some "zzz", some "a", some "folder", none, false, none⟩
        0 (.hex fxIdD) "/p" true).outcome =
      PostUploadOutcome.response HttpResp.unauthorized := by
  decide

/-- Claim C5, evaluated on the code: an upload with ABSENT parentId is
stored with a freshly generated ObjectId as parentId — the destructuring
default is the number 0, which fails the strict comparison with the string
"0" and is handed to the ObjectId constructor — while the sentinel string
"0" is normalized to null and a supplied valid folder id is stored as that
folder's id. -/
theorem c5_absent_parent_stored_nonnull :
    ((postUpload fxRedis fxUsers []
        ⟨some "tokA", some "docs", some "folder", none, false, none⟩
        7 (.hex fxIdD) "/p" true).db.map (fun f => f.parentId)) =
      [some (BsonId.generated 7)] ∧
    ((postUpload fxRedis fxUsers []
        ⟨some "tokA", some "docs", some "folder", some "0", false, none⟩
        7 (.hex fxIdD) "/p" true).db.map (fun f => f.parentId)) = [none] ∧
    ((postUpload fxRedis fxUsers [fxFolderD]
        ⟨some "tokA", some "a.txt", some "file", some fxIdD, false, some "aGk="⟩
        7 (.hex fxIdF) "/p" true).db.map (fun f => f.parentId)) =
      [none, some (BsonId.hex fxIdD)] := by
  decide

/-- Claim C6, counterexample: for user A owning a root folder and a file
inside it, a list request with ABSENT parentId returns only the root folder
— the code always applies a parent filter, normalizing an absent parameter
to null — whereas the claim's unfiltered reading would also return the
child file. -/
theorem c6_absent_parent_filter_counterexample :
    getIndexFiles [fxFolderD, fxChildF] (.hex fxIdA) none 0 =
      [sanitize fxFolderD] ∧
    specListFiles [fxFolderD, fxChildF] (.hex fxIdA) none 0 =
      [sanitize fxFolderD, sanitize fxChildF] ∧
    getIndexFiles [fxFolderD, fxChildF] (.hex fxIdA) none 0 ≠
      specListFiles [fxFolderD, fxChildF] (.hex fxIdA) none 0 := by
  decide

/-- Claim C7, evaluated on the code: even the OWNER requesting their own
stored image — with a supported size or with none — receives 401: after the
folder check the handler reads the identifier mime, which is bound nowhere
in the module, and the resulting ReferenceError is converted to 401 by the
catch; the readFile branch that would distinguish NotFound is unreachable.
The derived-path computation itself does follow localPath + "_" + size for
the three supported widths. -/
theorem c7_data_endpoint_always_unauthorized :
    getFile fxRedis fxUsers [fxPubFile] (some "tokA") fxIdF (some "100") =
      FileResult.unauthorized ∧
    getFile fxRedis fxUsers [fxPubFile] (some "tokA") fxIdF none =
      FileResult.unauthorized ∧
    thumbnailLocalPath "/tmp/files_manager/u1" (some "100") =
      "/tmp/files_manager/u1_100" ∧
    thumbnailLocalPath "/tmp/files_manager/u1" (some "321") =
      "/tmp/files_manager/u1" := by
  decide

/-- Claim C6 (amended): every listed item belongs to the requesting owner,
a page holds at most 20 items taken at offset page * 20 of the matching
set, and the parent filter is ALWAYS applied — the root sentinel "0" and an
absent (or malformed) parentId both restrict the listing to nodes whose
parentId is null; there is no unfiltered listing. -/
theorem c6_listing_amended (db : List FileDoc) (uid : BsonId) (q : Option String)
    (page : Nat) :
    (getIndexFiles db uid q page).length ≤ itemsPerPage ∧
    (∀ p ∈ getIndexFiles db uid q page, p.userId = uid) ∧
    getIndexFiles db uid q page =
      (((indexMatching db uid (normalizeQueryParentId q)).drop
        (page * itemsPerPage)).take itemsPerPage).map sanitize ∧
    normalizeQueryParentId (some "0") = none ∧
    normalizeQueryParentId none = none := by
  refine ⟨?_, ?_, rfl, rfl, rfl⟩
  · rw [getIndexFiles, List.length_map]
    exact List.length_take_le _ _
  · intro p hp
    rw [getIndexFiles, List.mem_map] at hp
    obtain ⟨f, hf, hpf⟩ := hp
    have h1 := List.take_subset _ _ hf
    have h2 := List.drop_subset _ _ h1
    rw [indexMatching, List.mem_filter] at h2
    have h3 := h2.2
    simp only [Bool.and_eq_true, beq_iff_eq] at h3
    subst hpf
    exact h3.1

/-- Witness for c6_listing_amended at a concrete database and query. -/
theorem c6_listing_amended_witness :
    (sanitize fxFolderD).userId = BsonId.hex fxIdA :=
  (c6_listing_amended [fxFolderD, fxChildF] (.hex fxIdA) none 0).2.1
    (sanitize fxFolderD) (by decide)

/-- Claim C8: a delivered thumbnail job completes exactly when fileId and
userId are both present (non-falsy) and a file owned by that user exists
under that id — equivalently, it is explicitly moved to failed, with a
reason, exactly when one of those conditions fails — and when the job does
run, all three widths are attempted independently: each width with a
successful generation contributes its rendition path, a failing width is
swallowed by generateThumbnail, and no per-width outcome affects the
completed status. -/
theorem c8_job_failure_semantics (db : List FileDoc) (jd : JobData)
    (ok : Nat → Bool) :
    ((processJob db jd ok).fst = JobStatus.completed ↔
      falsyOpt jd.fileId = false ∧ falsyOpt jd.userId = false ∧
        findFileForJob db (jd.fileId.getD "") (jd.userId.getD "") ≠ none) ∧
    (∀ f, findFileForJob db (jd.fileId.getD "") (jd.userId.getD "") = some f →
      falsyOpt jd.fileId = false → falsyOpt jd.userId = false →
      processJob db jd ok =
        (JobStatus.completed,
          thumbnailSizes.filterMap
            (fun w => generateThumbnail (f.localPath.getD "") w (ok w)))) := by
  cases hb1 : falsyOpt jd.fileId
  case true => simp [processJob, hb1]
  case false =>
  cases hb2 : falsyOpt jd.userId
  case true => simp [processJob, hb1, hb2]
  case false =>
  cases hval : objectIdIsValid (jd.fileId.getD "") && objectIdIsValid (jd.userId.getD "")
  case false =>
    have hnone : findFileForJob db (jd.fileId.getD "") (jd.userId.getD "") = none := by
      simp [findFileForJob, hval]
    simp [processJob, hb1, hb2, hval, hnone]
  case true =>
    cases hff : findFileForJob db (jd.fileId.getD "") (jd.userId.getD "") with
    | none => simp [processJob, hb1, hb2, hval, hff]
    | some f => simp [processJob, hb1, hb2, hval, hff]

/-- Witness for c8_job_failure_semantics: a concrete job for the stored
file of user A where only the 100 width succeeds: the job completes and
exactly that rendition is written. -/
theorem c8_job_failure_semantics_witness :
    processJob [fxChildF] ⟨some fxIdF, some fxIdA⟩ (fun w => w == 100) =
      (JobStatus.completed,
        thumbnailSizes.filterMap
          (fun w => generateThumbnail "/p" w (w == 100))) :=
  (c8_job_failure_semantics [fxChildF] ⟨some fxIdF, some fxIdA⟩
      (fun w => w == 100)).2 fxChildF (by decide) (by decide) (by decide)

/-- Helper: a type whose default-completed value is accepted is not falsy. -/
lemma accepted_not_falsy {t : Option String} (ht : t.getD "" ∈ acceptedFileTypes) :
    falsyOpt t = false := by
  cases t with
  | none => simp [acceptedFileTypes] at ht
  | some s =>
    have hne : s ≠ "" := by
      intro h
      subst h
      simp [acceptedFileTypes] at ht
    simp [falsyOpt, hne]

/-- Helper: the three accepted file types, as cases. -/
lemma accepted_cases {t : Option String} (ht : t.getD "" ∈ acceptedFileTypes) :
    t.getD "" = "folder" ∨ t.getD "" = "file" ∨ t.getD "" = "image" := by
  simpa [acceptedFileTypes] using ht

/-- Claim C9: upload validation runs its checks in a fixed order with the
first failure winning — missing name; then missing or unrecognized type
(the accepted set being folder, file, image); then missing data for
non-folder types; then, for a supplied non-root parentId: malformed
identifier, then parent not found, then parent not a folder — each check
producing its own 400 error message, and a request passing every check
producing no validation error. -/
theorem c9_validation_first_failure_wins (db : List FileDoc) (req : UploadReq) :
    (falsyOpt req.name = true → validateFileRequest db req = some "Missing name") ∧
    (falsyOpt req.name = false →
      req.type.getD "" ∉ acceptedFileTypes →
      validateFileRequest db req = some "Missing type") ∧
    (falsyOpt req.name = false → req.type.getD "" ∈ acceptedFileTypes →
      req.type.getD "" ≠ "folder" → falsyOpt req.data = true →
      validateFileRequest db req = some "Missing data") ∧
    (∀ p, falsyOpt req.name = false → req.type.getD "" ∈ acceptedFileTypes →
      (req.type.getD "" = "folder" ∨ falsyOpt req.data = false) →
      req.parentId = some p → p ≠ "0" → objectIdIsValid p = false →
      validateFileRequest db req = some "Invalid parentId format") ∧
    (∀ p, falsyOpt req.name = false → req.type.getD "" ∈ acceptedFileTypes →
      (req.type.getD "" = "folder" ∨ falsyOpt req.data = false) →
      req.parentId = some p → p ≠ "0" → objectIdIsValid p = true →
      db.find? (fun f => f._id == BsonId.hex p) = none →
      validateFileRequest db req = some "Parent not found") ∧
    (∀ p g, falsyOpt req.name = false → req.type.getD "" ∈ acceptedFileTypes →
      (req.type.getD "" = "folder" ∨ falsyOpt req.data = false) →
      req.parentId = some p → p ≠ "0" → objectIdIsValid p = true →
      db.find? (fun f => f._id == BsonId.hex p) = some g → g.type ≠ "folder" →
      validateFileRequest db req = some "Parent is not a folder") ∧
    (∀ p g, falsyOpt req.name = false → req.type.getD "" ∈ acceptedFileTypes →
      (req.type.getD "" = "folder" ∨ falsyOpt req.data = false) →
      req.parentId = some p → p ≠ "0" → objectIdIsValid p = true →
      db.find? (fun f => f._id == BsonId.hex p) = some g → g.type = "folder" →
      validateFileRequest db req = none) ∧
    (falsyOpt req.name = false → req.type.getD "" ∈ acceptedFileTypes →
      (req.type.getD "" = "folder" ∨ falsyOpt req.data = false) →
      (req.parentId = none ∨ req.parentId = some "0") →
      validateFileRequest db req = none) := by
  refine ⟨?_, ?_, ?_, ?_, ?_, ?_, ?_, ?_⟩
  · intro h
    simp [validateFileRequest, h]
  · intro h1 h2
    simp [validateFileRequest, h1, h2]
  · intro h1 h2 h3 h4
    simp [validateFileRequest, h1, accepted_not_falsy h2, h2, h3, h4]
  · intro p h1 h2 h3 hp hp0 hv
    have hft := accepted_not_falsy h2
    rcases h3 with h3 | h3
    · simp [validateFileRequest, h1, hft, h3, hp, hp0, hv, acceptedFileTypes]
    · rcases accepted_cases h2 with ht | ht | ht <;>
        simp [validateFileRequest, h1, hft, ht, h3, hp, hp0, hv, acceptedFileTypes]
  · intro p h1 h2 h3 hp hp0 hv hfind
    have hft := accepted_not_falsy h2
    rcases h3 with h3 | h3
    · simp [validateFileRequest, h1, hft, h3, hp, hp0, hv, hfind, acceptedFileTypes]
    · rcases accepted_cases h2 with ht | ht | ht <;>
        simp [validateFileRequest, h1, hft, ht, h3, hp, hp0, hv, hfind, acceptedFileTypes]
  · intro p g h1 h2 h3 hp hp0 hv hfind hg
    have hft := accepted_not_falsy h2
    rcases h3 with h3 | h3
    · simp [validateFileRequest, h1, hft, h3, hp, hp0, hv, hfind, hg, acceptedFileTypes]
    · rcases accepted_cases h2 with ht | ht | ht <;>
        simp [validateFileRequest, h1, hft, ht, h3, hp, hp0, hv, hfind, hg, acceptedFileTypes]
  · intro p g h1 h2 h3 hp hp0 hv hfind hg
    have hft := accepted_not_falsy h2
    rcases h3 with h3 | h3
    · simp [validateFileRequest, h1, hft, h3, hp, hp0, hv, hfind, hg, acceptedFileTypes]
    · rcases accepted_cases h2 with ht | ht | ht <;>
        simp [validateFileRequest, h1, hft, ht, h3, hp, hp0, hv, hfind, hg, acceptedFileTypes]
  · intro h1 h2 h3 hp
    have hft := accepted_not_falsy h2
    rcases h3 with h3 | h3
    · rcases hp with hp | hp <;>
        simp [validateFileRequest, h1, hft, h3, hp, acceptedFileTypes]
    · rcases accepted_cases h2 with ht | ht | ht <;> rcases hp with hp | hp <;>
        simp [validateFileRequest, h1, hft, ht, h3, hp, acceptedFileTypes]

/-- Witness for c9_validation_first_failure_wins: a file upload naming a
well-formed parentId that exists in no collection fails with the Parent not
found error. -/
theorem c9_validation_first_failure_wins_witness :
    validateFileRequest []
      ⟨some "tokA", some "a.txt", some "file", some fxIdB, false, some "ZZ"⟩ =
      some "Parent not found" :=
  (c9_validation_first_failure_wins []
      ⟨some "tokA", some "a.txt", some "file", some fxIdB, false, some "ZZ"⟩).2.2.2.2.1
    fxIdB (by decide) (by decide) (by decide) (by decide) (by decide) (by decide)
    (by decide)

/-- Helper: every document after an updateOne on isPublic is some original
document, unchanged or with only its isPublic field replaced. -/
lemma updateOneSetPublic_mem (db : List FileDoc) (tid : BsonId) (flag : Bool) :
    ∀ f ∈ updateOneSetPublic db tid flag,
      ∃ g, g ∈ db ∧ (f = g ∨ f = { g with isPublic := flag }) := by
  induction db with
  | nil => intro f hf; simp [updateOneSetPublic] at hf
  | cons a as ih =>
    intro f hf
    rw [updateOneSetPublic] at hf
    by_cases h : (a._id == tid) = true
    · rw [if_pos h] at hf
      rcases List.mem_cons.mp hf with hf | hf
      · exact ⟨a, List.mem_cons_self a as, Or.inr hf⟩
      · exact ⟨f, List.mem_cons_of_mem a hf, Or.inl rfl⟩
    · rw [if_neg h] at hf
      rcases List.mem_cons.mp hf with hf | hf
      · exact ⟨a, List.mem_cons_self a as, Or.inl hf⟩
      · obtain ⟨g, hg, hfg⟩ := ih f hf
        exact ⟨g, List.mem_cons_of_mem a hg, hfg⟩

/-- Helper: updateOne preserves the collection size. -/
lemma updateOneSetPublic_length (db : List FileDoc) (tid : BsonId) (flag : Bool) :
    (updateOneSetPublic db tid flag).length = db.length := by
  induction db with
  | nil => rfl
  | cons a as ih =>
    rw [updateOneSetPublic]
    by_cases h : (a._id == tid) = true
    · rw [if_pos h]
      simp
    · rw [if_neg h]
      simp [ih]

/-- Helper: the storage invariant ignores isPublic. -/
lemma fileNodeInv_setPublic {g : FileDoc} (h : fileNodeInv g) (flag : Bool) :
    fileNodeInv { g with isPublic := flag } := h

/-- Claim C10: every document stored by the upload path satisfies the
storage invariant — a folder is inserted without localPath, a non-folder is
inserted with localPath set — provided the collection satisfied it before,
and the publish/unpublish update touches nothing but the isPublic field of
the first document matching the id: the collection keeps its size and every
resulting document is an original one, identical or differing only in
isPublic. -/
theorem c10_storage_invariant_and_publish_isolation
    (redis : List (String × String)) (users : List UserDoc) (db : List FileDoc)
    (req : UploadReq) (seed : Nat) (newId : BsonId) (path : String) (ws : Bool)
    (tid : BsonId) (flag : Bool)
    (hdb : ∀ f ∈ db, fileNodeInv f) :
    (∀ f ∈ (postUpload redis users db req seed newId path ws).db, fileNodeInv f) ∧
    (∀ f ∈ updateOneSetPublic db tid flag, fileNodeInv f) ∧
    (updateOneSetPublic db tid flag).length = db.length ∧
    (∀ f ∈ updateOneSetPublic db tid flag,
      ∃ g, g ∈ db ∧ (f = g ∨ f = { g with isPublic := flag })) := by
  refine ⟨?_, ?_, updateOneSetPublic_length db tid flag,
    updateOneSetPublic_mem db tid flag⟩
  · intro f hf
    cases hu : getUserData redis users req.token with
    | thrown msg =>
      simp [postUpload, hu] at hf
      exact hdb f hf
    | noUser =>
      simp [postUpload, hu] at hf
      exact hdb f hf
    | found u =>
      cases hv : validParentId (parentIdVal req) seed with
      | none =>
        cases hve : validateFileRequest db req with
        | none =>
          simp [postUpload, hu, hv, hve] at hf
          exact hdb f hf
        | some m =>
          simp [postUpload, hu, hv, hve] at hf
          exact hdb f hf
      | some pid =>
        by_cases ht : (req.type.getD "" == "folder") = true
        · simp [postUpload, hu, hv, ht, createFolder] at hf
          rcases hf with hf | hf
          · exact hdb f hf
          · subst hf
            have hteq := eq_of_beq ht
            refine ⟨fun _ => rfl, fun hc => ?_⟩
            simp [hteq] at hc
        · cases hd : req.data with
          | none =>
            simp [postUpload, hu, hv, ht, createFile, hd] at hf
            exact hdb f hf
          | some d =>
            simp [postUpload, hu, hv, ht, createFile, hd, saveToLocalFileSystem] at hf
            rcases hf with hf | hf
            · exact hdb f hf
            · subst hf
              refine ⟨fun hc => ?_, fun _ => by simp⟩
              rw [Bool.not_eq_true] at ht
              have : (req.type.getD "" == "folder") = true := by simpa using hc
              rw [ht] at this
              exact absurd this (by decide)
  · intro f hf
    obtain ⟨g, hg, hfg⟩ := updateOneSetPublic_mem db tid flag f hf
    rcases hfg with h | h
    · rw [h]
      exact hdb g hg
    · rw [h]
      exact fileNodeInv_setPublic (hdb g hg) flag

/-- Witness for c10_storage_invariant_and_publish_isolation: the folder
inserted by a concrete upload into an empty collection satisfies the
storage invariant. -/
theorem c10_storage_invariant_witness :
    fileNodeInv ⟨.hex fxIdD, .hex fxIdA, "docs", "folder", false,
      some (BsonId.generated 7), none⟩ :=
  (c10_storage_invariant_and_publish_isolation fxRedis fxUsers []
      ⟨some "tokA", some "docs", some "folder", none, false, none⟩ 7 (.hex fxIdD)
      "/p" true (.hex fxIdD) true (by decide)).1
    ⟨.hex fxIdD, .hex fxIdA, "docs", "folder", false,
      some (BsonId.generated 7), none⟩ (by decide)

end FilesManager
